import Mathlib

/-!
Shallow embedding of `app.py` (ERA5 hourly Streamlit dashboard) and proofs
about its helper functions, lookup tables and post-load control flow.

Numeric data values are modelled as rationals: the unit conversions and the
coastline wrapping are exact affine operations, and the claims under study are
about which operation is applied where, not about floating-point rounding.
NumPy `nan` break points in the coastline trace are modelled by `Option`
(`none` is a `nan` entry).
-/

namespace ERA5

/-! ## Definitions -/

/-- Python `f"{n:02d}"` for a non-negative integer: decimal digits, left-padded
with `0` to width two. -/
def pad2 (n : Nat) : String :=
  if n < 10 then "0" ++ toString n else toString n

/-- Python `calendar.isleap`. -/
def isleap (y : Nat) : Bool :=
  (y % 4 == 0 && y % 100 != 0) || y % 400 == 0

/-- Python `calendar.mdays` (day counts per month, index 0 unused). -/
def mdays : List Nat := [0, 31, 28, 31, 30, 31, 30, 31, 31, 30, 31, 30, 31]

/-- The second component of Python `calendar.monthrange year month`:
the number of days in the month. -/
def monthlen (y m : Nat) : Nat :=
  if m = 2 ∧ isleap y then 29 else mdays.getD m 0

/-- A Python `datetime.date`: the fields `rda_url` reads. -/
structure PyDate where
  year : Nat
  month : Nat
  day : Nat
deriving DecidableEq, Repr

/-- The `base` string of `rda_url`. -/
def rdaBase : String := "https://thredds.rda.ucar.edu/thredds/dodsC/files/g/d633000/"

/-- `rda_url` from `app.py`: builds the RDA THREDDS URL for hourly ERA5 data.
A monthly file for the surface domain, a daily file for pressure levels. -/
def rda_url (dom code v : String) (date : PyDate) : String :=
  let year := date.year
  let month := date.month
  let day := date.day
  if dom = "sfc" then
    let last_day := monthlen year month
    let folder := "e5.oper.an.sfc/" ++ toString year ++ pad2 month ++ "/"
    let filename :=
      "e5.oper.an.sfc.128_" ++ code ++ "_" ++ v ++ ".ll025sc." ++
      toString year ++ pad2 month ++ "0100_" ++
      toString year ++ pad2 month ++ toString last_day ++ "23.nc"
    rdaBase ++ folder ++ filename
  else
    let extra := if v = "u" ∨ v = "v" then "uv" else "sc"
    let folder := "e5.oper.an.pl/" ++ toString year ++ pad2 month ++ "/"
    let filename :=
      "e5.oper.an.pl.128_" ++ code ++ "_" ++ v ++ ".ll025" ++ extra ++ "." ++
      toString year ++ pad2 month ++ pad2 day ++ "00_" ++
      toString year ++ pad2 month ++ pad2 day ++ "23.nc"
    rdaBase ++ folder ++ filename

/-- The monthly surface URL exactly as the spec describes it: base, folder
`e5.oper.an.sfc/YYYYMM/`, file
`e5.oper.an.sfc.128_{code}_{var}.ll025sc.YYYYMM0100_YYYYMM{last}23.nc`
with `{last}` the last day of the month from `calendar.monthrange`. -/
def urlSfcSpec (code v : String) (year month : Nat) : String :=
  "https://thredds.rda.ucar.edu/thredds/dodsC/files/g/d633000/" ++
  ("e5.oper.an.sfc/" ++ toString year ++ pad2 month ++ "/") ++
  ("e5.oper.an.sfc.128_" ++ code ++ "_" ++ v ++ ".ll025sc." ++
   toString year ++ pad2 month ++ "0100_" ++
   toString year ++ pad2 month ++ toString (monthlen year month) ++ "23.nc")

/-- The daily pressure-level URL exactly as the spec describes it: base, folder
`e5.oper.an.pl/YYYYMM/`, file
`e5.oper.an.pl.128_{code}_{var}.ll025{extra}.YYYYMMDD00_YYYYMMDD23.nc`
with `{extra} = "uv"` for the wind short names `u`, `v` and `"sc"` otherwise. -/
def urlPlSpec (code v : String) (year month day : Nat) : String :=
  "https://thredds.rda.ucar.edu/thredds/dodsC/files/g/d633000/" ++
  ("e5.oper.an.pl/" ++ toString year ++ pad2 month ++ "/") ++
  ("e5.oper.an.pl.128_" ++ code ++ "_" ++ v ++ ".ll025" ++
   (if v = "u" ∨ v = "v" then "uv" else "sc") ++ "." ++
   toString year ++ pad2 month ++ pad2 day ++ "00_" ++
   toString year ++ pad2 month ++ pad2 day ++ "23.nc")

/-- Python `str.upper` on one ASCII character. -/
def upChar (c : Char) : Char :=
  if 'a' ≤ c ∧ c ≤ 'z' then Char.ofNat (c.toNat - 32) else c

/-- Python `str.upper` (the short names in the tables are ASCII). -/
def pyUpper (s : String) : String := ⟨s.data.map upChar⟩

/-- Worker for Python `str.replace`: replaces each leftmost non-overlapping
occurrence of the non-empty pattern `p :: ps` by `rep`. -/
def replaceL (p : Char) (ps rep : List Char) : List Char → List Char
  | [] => []
  | c :: rest =>
      if (p :: ps).isPrefixOf (c :: rest)
      then rep ++ replaceL p ps rep (rest.drop ps.length)
      else c :: replaceL p ps rep rest
termination_by l => l.length
decreasing_by
  · simp
    have := List.length_drop ps.length rest
    omega
  · simp

/-- Python `str.replace pat rep` (all occurrences, left to right). -/
def pyReplace (s pat rep : String) : String :=
  match pat.data with
  | [] => s
  | p :: ps => ⟨replaceL p ps rep.data s.data⟩

/-- The three candidate keys `find_var` tries, in order:
`up`, `f"VAR_{up}"`, `up.replace("10", "10M")`. -/
def candidates (short : String) : List String :=
  let up := pyUpper short
  [up, "VAR_" ++ up, pyReplace up "10" "10M"]

/-- `find_var` from `app.py`: the first candidate spelling present among the
dataset keys `ds`; `none` models the `KeyError` raised when no candidate is
present.  The embedding is a pure function of `ds`, which is read, never
written. -/
def find_var (ds : List String) (short : String) : Option String :=
  (candidates short).find? (fun k => ds.contains k)

/-- One value of the `SURFACE` / `PRESSURE` lookup tables:
`(domain, code, vname, units, cmap)`. -/
structure VarEntry where
  dom : String
  code : String
  vname : String
  units : String
  cmap : String
deriving DecidableEq, Repr

/-- The `SURFACE` lookup table of `app.py` (display name to entry). -/
def SURFACE : List (String × VarEntry) :=
  [ ("Sea-surface temperature", ⟨"sfc", "034", "sstk", "°C", "thermal"⟩),
    ("CAPE", ⟨"sfc", "059", "cape", "J kg⁻¹", "viridis"⟩),
    ("Surface geopotential", ⟨"sfc", "129", "z", "m² s⁻²", "magma"⟩),
    ("Surface pressure", ⟨"sfc", "134", "sp", "hPa", "icefire"⟩),
    ("Mean sea-level press.", ⟨"sfc", "151", "msl", "hPa", "icefire"⟩),
    ("10-m zonal wind", ⟨"sfc", "165", "10u", "m s⁻¹", "curl"⟩),
    ("10-m meridional wind", ⟨"sfc", "166", "10v", "m s⁻¹", "curl_r"⟩),
    ("2-m temperature", ⟨"sfc", "167", "2t", "°C", "thermal"⟩) ]

/-- The `PRESSURE` lookup table of `app.py` (display name to entry). -/
def PRESSURE : List (String × VarEntry) :=
  [ ("Potential vorticity", ⟨"pl", "060", "pv", "PVU", "plasma"⟩),
    ("Geopotential", ⟨"pl", "129", "z", "m² s⁻²", "magma"⟩),
    ("Temperature", ⟨"pl", "130", "t", "K", "thermal"⟩),
    ("Zonal wind", ⟨"pl", "131", "u", "m s⁻¹", "curl"⟩),
    ("Meridional wind", ⟨"pl", "132", "v", "m s⁻¹", "curl_r"⟩),
    ("Specific humidity", ⟨"pl", "133", "q", "kg kg⁻¹", "viridis"⟩),
    ("Vertical velocity", ⟨"pl", "135", "w", "Pa s⁻¹", "icefire"⟩),
    ("Relative vorticity", ⟨"pl", "138", "vo", "s⁻¹", "plasma"⟩),
    ("Divergence", ⟨"pl", "155", "d", "s⁻¹", "plasma"⟩),
    ("Relative humidity", ⟨"pl", "157", "r", "%", "viridis"⟩),
    ("Ozone", ⟨"pl", "203", "o3", "kg kg⁻¹", "viridis"⟩) ]

/-- `COMMON_PLEVELS` from `app.py`. -/
def COMMON_PLEVELS : List Nat := [975, 850, 700, 500, 250, 100, 50, 10]

/-- A 2-D (latitude × longitude) field of data values. -/
abbrev Field := List (List ℚ)

/-- One time step of a pressure-level file: the fields, keyed by the value of
the `level` coordinate. -/
abbrev LevelStack := List (Nat × Field)

/-- NumPy broadcast of a scalar operation over a 2-D field. -/
def mapF (f : ℚ → ℚ) (x : Field) : Field := x.map (List.map f)

/-- NumPy broadcast of a scalar operation over a time-stacked 3-D array. -/
def map3 (f : ℚ → ℚ) (x : List Field) : List Field := x.map (mapF f)

/-- NumPy broadcast of a scalar operation over a 4-D (time × level) array;
the `level` coordinate values are untouched. -/
def mapLS (f : ℚ → ℚ) (x : List LevelStack) : List LevelStack :=
  x.map (List.map (fun q => (q.1, mapF f q.2)))

/-- `da.sel(time=...)` modelled positionally: the field at time index `t`. -/
def selTime (da : List Field) (t : Nat) : Field := da.getD t []

/-- `da_all.sel(level=plevel)`: at each time step, the field whose `level`
coordinate equals `p`. -/
def selLevel (da : List LevelStack) (p : Nat) : List Field :=
  da.map (fun lv => ((lv.find? (fun q => q.1 == p)).map Prod.snd).getD [])

/-- The short names of the Kelvin-to-Celsius conversion branch of `app.py`. -/
def tempNames : List String := ["sstk", "2t", "t"]

/-- The short names of the Pa-to-hPa conversion branch of `app.py`. -/
def pressNames : List String := ["sp", "msl"]

/-- The unit-conversion step of `app.py` on the (time-stacked) array `da`
together with the units label: first `da_all = da_all - 273.15; units = "°C"`
when the short name is a temperature, then `da_all = da_all / 100.0;
units = "hPa"` when it is a pressure. -/
def convertUnits (vname : String) (da : List Field) (units : String) :
    List Field × String :=
  let s := if vname ∈ tempNames then (map3 (fun x => x - 273.15) da, "°C")
           else (da, units)
  if vname ∈ pressNames then (map3 (fun x => x / 100) s.1, "hPa")
  else s

/-- The same unit-conversion step applied to a single 2-D field (the spec's
order of operations: slice first, convert after). -/
def convertField (vname : String) (f : Field) (units : String) :
    Field × String :=
  let s := if vname ∈ tempNames then (mapF (fun x => x - 273.15) f, "°C")
           else (f, units)
  if vname ∈ pressNames then (mapF (fun x => x / 100) s.1, "hPa")
  else s

/-- The same unit-conversion step applied to a whole 4-D (time × level)
array. -/
def convert4 (vname : String) (da : List LevelStack) (units : String) :
    List LevelStack × String :=
  let s := if vname ∈ tempNames then (mapLS (fun x => x - 273.15) da, "°C")
           else (da, units)
  if vname ∈ pressNames then (mapLS (fun x => x / 100) s.1, "hPa")
  else s

/-- NumPy `np.mod x 360` on a finite value: the representative of `x`
modulo 360 lying in `[0, 360)`. -/
def wrap360 (x : ℚ) : ℚ := x - 360 * (⌊x / 360⌋ : ℤ)

/-- An entry of the scatter trace: `none` models a `nan, nan` break pair
appended to `xs, ys`, `some (x, y)` an ordinary point. -/
abbrev TracePt := Option (ℚ × ℚ)

/-- The inner loop of `coastlines_trace` over one line whose longitudes are
already wrapped: emit each point, and after point `i` a break when the
longitudes of points `i` and `i+1` differ by more than `gap`. -/
def lineSegs (gap : ℚ) : List (ℚ × ℚ) → List TracePt
  | [] => []
  | [w] => [some w]
  | w :: w2 :: rest =>
      some w ::
        (if |w2.1 - w.1| > gap then (none : TracePt) :: lineSegs gap (w2 :: rest)
         else lineSegs gap (w2 :: rest))

/-- `coastlines_trace` from `app.py`, over the geometries of the Natural Earth
coastline feature (each geometry a list of lines, each a list of
(longitude, latitude) points): for each line, wrap its longitudes with
`np.mod(lon, 360)`, append a `nan` break, then its points with further breaks
at longitude jumps larger than `gap`; the call sites use the default
`gap = 10`. -/
def coastlines_trace (geoms : List (List (List (ℚ × ℚ)))) (gap : ℚ) :
    List TracePt :=
  geoms.flatMap (fun geom => geom.flatMap (fun line =>
    none :: lineSegs gap (line.map (fun q => (wrap360 q.1, q.2)))))

/-- The trace of one wrapped line as the claim reads it: the first point, then
for each consecutive pair of points a break when their longitudes differ by
more than `gap`, followed by the second point of the pair. -/
def lineTraceSpec (gap : ℚ) (ws : List (ℚ × ℚ)) : List TracePt :=
  match ws with
  | [] => []
  | w :: rest =>
      some w :: (List.zip (w :: rest) rest).flatMap
        (fun ab => (if |ab.2.1 - ab.1.1| > gap then [(none : TracePt)] else [])
          ++ [some ab.2])

/-- The inputs of the colour-bar stage of `app.py`: the two slider values,
whether the auto-scale button was clicked, and the 1 % / 99 % quantile values
`np.nanquantile` returns on that click. -/
structure ColourbarInput where
  slider_cmin : ℚ
  slider_cmax : ℚ
  autoscale_clicked : Bool
  qmin : ℚ
  qmax : ℚ

/-- Outcome of a run after the data was loaded: either `st.stop()` with the
error message shown, or the plotting stage reached with the final limits. -/
inductive RunOutcome where
  | stopped (msg : String)
  | plotted (cmin cmax : ℚ)
deriving DecidableEq, Repr

/-- The colour limits in force after the optional auto-scale click
(`cmin, cmax = float(qmin), float(qmax)` overwrite the slider values). -/
def finalLimits (inp : ColourbarInput) : ℚ × ℚ :=
  if inp.autoscale_clicked then (inp.qmin, inp.qmax)
  else (inp.slider_cmin, inp.slider_cmax)

/-- The `if cmin >= cmax` guard of `app.py`: `st.sidebar.error("Min must be
less than Max")` and `st.stop()` when the limits are inverted, otherwise fall
through to one of the two plotting branches. -/
def colourbarStage (inp : ColourbarInput) : RunOutcome :=
  let c := finalLimits inp
  if c.1 ≥ c.2 then .stopped "Min must be less than Max"
  else .plotted c.1 c.2

/-- The `Domain` radio button of the sidebar. -/
inductive FieldType where
  | Surface
  | PressureLevel
deriving DecidableEq, Repr

/-- One run's sidebar field selections: the domain radio button and the index
each `selectbox` returns into its option list. -/
structure Sidebar where
  field_type : FieldType
  surface_choice : Fin SURFACE.length
  pressure_choice : Fin PRESSURE.length
  plevel_choice : Fin COMMON_PLEVELS.length

/-- The `(domain, code, vname, units, cmap)` tuple unpacked from the table
matching the domain selection. -/
def chosenEntry (sb : Sidebar) : VarEntry :=
  match sb.field_type with
  | .Surface => (SURFACE.get sb.surface_choice).2
  | .PressureLevel => (PRESSURE.get sb.pressure_choice).2

/-- `plevel` as set by the sidebar of `app.py`: `None` on the Surface branch,
the chosen element of `COMMON_PLEVELS` on the pressure-level branch. -/
def plevelOf (sb : Sidebar) : Option Nat :=
  match sb.field_type with
  | .Surface => none
  | .PressureLevel => some (COMMON_PLEVELS.get sb.plevel_choice)

/-- The data pipeline of `app.py` from the opened variable to the plotted 2-D
field of a non-animated run: `da_all = ds[varname]`, then
`da_all = da_all.sel(level=plevel)` exactly when `plevel is not None`, then
the unit-conversion step, then the time selection.  A surface file is a time
stack `sfcData`, a pressure-level file a time × level array `plData`. -/
def program_field (sb : Sidebar) (sfcData : List Field)
    (plData : List LevelStack) (t : Nat) : Field :=
  match plevelOf sb with
  | none =>
      selTime (convertUnits (chosenEntry sb).vname sfcData (chosenEntry sb).units).1 t
  | some p =>
      selTime (convertUnits (chosenEntry sb).vname (selLevel plData p)
        (chosenEntry sb).units).1 t

/-- Elementwise difference of two 2-D fields (NumPy broadcast `-`). -/
def fieldSub (a b : Field) : Field :=
  List.zipWith (fun r s => List.zipWith (fun x y : ℚ => x - y) r s) a b

/-- Modelled from the spec: the anomaly-computing dashboard variants of this
repository are not under `src/` (only the plain hourly viewer `app.py` is).
The spec states the dashboards "optionally compute anomalies against a
climatology" by "subtracting a climatology slice" from the selected field
before it is rendered.  `useAnomaly` is the user's toggle, `field` the
selected ERA5 2-D slice, `clim` the corresponding climatology slice; the
returned field is the one handed to the plotting call. -/
def anomalyStep (useAnomaly : Bool) (field clim : Field) : Field :=
  if useAnomaly then fieldSub field clim else field

end ERA5

namespace ERA5

/-! ## Theorems -/

/-- Shared lemma: on the surface domain `rda_url` produces the monthly file. -/
theorem rda_url_sfc (code v : String) (d : PyDate) :
    rda_url "sfc" code v d = urlSfcSpec code v d.year d.month := by
  simp [rda_url, urlSfcSpec, rdaBase]

/-- Shared lemma: on the pressure-level domain `rda_url` produces the daily file. -/
theorem rda_url_pl (code v : String) (d : PyDate) :
    rda_url "pl" code v d = urlPlSpec code v d.year d.month d.day := by
  simp [rda_url, urlPlSpec, rdaBase]

example : rda_url "sfc" "167" "2t" ⟨2022, 1, 5⟩ =
    "https://thredds.rda.ucar.edu/thredds/dodsC/files/g/d633000/e5.oper.an.sfc/202201/e5.oper.an.sfc.128_167_2t.ll025sc.2022010100_2022013123.nc" := by decide

example : rda_url "pl" "131" "u" ⟨2022, 1, 5⟩ =
    "https://thredds.rda.ucar.edu/thredds/dodsC/files/g/d633000/e5.oper.an.pl/202201/e5.oper.an.pl.128_131_u.ll025uv.2022010500_2022010523.nc" := by decide

example : monthlen 2024 2 = 29 := by decide
example : monthlen 1900 2 = 28 := by decide
example : monthlen 2000 2 = 29 := by decide

example : find_var ["VAR_2T", "2T"] "2t" = some "2T" := by decide
example : find_var ["VAR_2T"] "2t" = some "VAR_2T" := by decide
example : find_var ["10MU"] "10u" = some "10MU" := by
  simp [find_var, candidates, pyUpper, upChar, pyReplace, replaceL, List.isPrefixOf, List.find?]
example : find_var ["Q"] "2t" = none := by
  simp [find_var, candidates, pyUpper, upChar, pyReplace, replaceL, List.isPrefixOf, List.find?]

/-- C2: for every date, code and short name, `rda_url` produces, on the surface
domain, the monthly file name described by the spec (base, folder
`e5.oper.an.sfc/YYYYMM/`, last day of the month from `calendar.monthrange`)
and, on the pressure-level domain, the daily file name (folder
`e5.oper.an.pl/YYYYMM/`, `ll025uv` for the short names `u`, `v` and `ll025sc`
otherwise). -/
theorem rda_url_matches_naming_convention (code v : String) (d : PyDate) :
    rda_url "sfc" code v d = urlSfcSpec code v d.year d.month ∧
    rda_url "pl" code v d = urlPlSpec code v d.year d.month d.day :=
  ⟨rda_url_sfc code v d, rda_url_pl code v d⟩

/-- C3 counterexample: the URL is not a function of (year, month, variable
code) alone for every domain; on the pressure-level domain `"pl"` with code
`"130"` and short name `"t"`, the dates 2022-01-01 and 2022-01-02 share year
and month but give different URLs. -/
theorem rda_url_day_dependence_counterexample :
    ¬ (∀ (dom code v : String) (d1 d2 : PyDate),
        d1.year = d2.year → d1.month = d2.month →
        rda_url dom code v d1 = rda_url dom code v d2) := by
  intro h
  have h2 := h "pl" "130" "t" ⟨2022, 1, 1⟩ ⟨2022, 1, 2⟩ rfl rfl
  exact absurd h2 (by decide)

/-- C3 amended: on the surface domain the URL is a function of
(year, month, code, short name) alone: any two dates with the same year and
the same month give the same URL. -/
theorem rda_url_sfc_month_function (code v : String) (d1 d2 : PyDate)
    (hy : d1.year = d2.year) (hm : d1.month = d2.month) :
    rda_url "sfc" code v d1 = rda_url "sfc" code v d2 := by
  rw [rda_url_sfc, rda_url_sfc, hy, hm]

/-- Witness for the amended C3 at the concrete dates 2022-03-04, 2022-03-28. -/
theorem rda_url_sfc_month_function_witness :
    rda_url "sfc" "034" "sstk" ⟨2022, 3, 4⟩ = rda_url "sfc" "034" "sstk" ⟨2022, 3, 28⟩ :=
  rda_url_sfc_month_function "034" "sstk" ⟨2022, 3, 4⟩ ⟨2022, 3, 28⟩ rfl rfl

/-- C4: `find_var ds short` returns the first candidate among
`[S, "VAR_" ++ S, S.replace "10" "10M"]` (`S` the uppercased short name) that
is a key of `ds`, and it signals `KeyError` (`none`) precisely when no
candidate is a key of `ds`.  `ds` is only read (the embedding is a pure
function of it). -/
theorem find_var_first_candidate (ds : List String) (short : String) :
    (find_var ds short =
      (if ds.contains (pyUpper short) then some (pyUpper short)
       else if ds.contains ("VAR_" ++ pyUpper short) then some ("VAR_" ++ pyUpper short)
       else if ds.contains (pyReplace (pyUpper short) "10" "10M") then
         some (pyReplace (pyUpper short) "10" "10M")
       else none)) ∧
    (find_var ds short = none ↔ ∀ k ∈ candidates short, ds.contains k = false) := by
  constructor
  · simp only [find_var, candidates, List.find?]
    cases h1 : ds.contains (pyUpper short) <;>
      cases h2 : ds.contains ("VAR_" ++ pyUpper short) <;>
        cases h3 : ds.contains (pyReplace (pyUpper short) "10" "10M") <;>
          simp [h1, h2, h3]
  · rw [show find_var ds short = (candidates short).find? (fun k => ds.contains k) from rfl,
      List.find?_eq_none]
    simp

/-- Witness for C4: on a dataset with the single key `VAR_2T`, the short name
`2t` resolves to its second candidate spelling. -/
theorem find_var_first_candidate_witness :
    find_var ["VAR_2T"] "2t" = some "VAR_2T" := by
  rw [(find_var_first_candidate ["VAR_2T"] "2t").1]
  simp [pyUpper, upChar, pyReplace, replaceL, List.isPrefixOf]

/-- C5: the unit-conversion step subtracts 273.15 and relabels to `°C` for the
temperature short names `sstk`, `2t`, `t`; divides by 100 and relabels to
`hPa` for the pressure short names `sp`, `msl`; and leaves both the array and
the units label unchanged for every other short name. -/
theorem unit_conversion_cases (vname : String) (da : List Field) (units : String) :
    (vname ∈ tempNames →
      convertUnits vname da units = (map3 (fun x => x - 273.15) da, "°C")) ∧
    (vname ∈ pressNames →
      convertUnits vname da units = (map3 (fun x => x / 100) da, "hPa")) ∧
    (vname ∉ tempNames → vname ∉ pressNames →
      convertUnits vname da units = (da, units)) := by
  refine ⟨fun h => ?_, fun h => ?_, fun h1 h2 => ?_⟩
  · have hp : vname ∉ pressNames := by
      simp only [tempNames, List.mem_cons, List.not_mem_nil, or_false] at h
      rcases h with rfl | rfl | rfl <;> decide
    simp [convertUnits, h, hp]
  · have ht : vname ∉ tempNames := by
      simp only [pressNames, List.mem_cons, List.not_mem_nil, or_false] at h
      rcases h with rfl | rfl <;> decide
    simp [convertUnits, h, ht]
  · simp [convertUnits, h1, h2]

/-- Witness for C5: the 2-metre temperature short name `2t` at the single
value 300 K converts to 26.85 °C. -/
theorem unit_conversion_cases_witness :
    "2t" ∈ tempNames ∧ convertUnits "2t" [[[300]]] "K" = ([[[26.85]]], "°C") := by
  refine ⟨by decide, ?_⟩
  rw [(unit_conversion_cases "2t" [[[300]]] "K").1 (by decide)]
  norm_num [map3, mapF]

/-- Shared lemma: a broadcast scalar operation commutes with time selection. -/
theorem selTime_map3 (f : ℚ → ℚ) (da : List Field) (t : Nat) :
    selTime (map3 f da) t = mapF f (selTime da t) := by
  simp only [selTime, map3, List.getD_eq_getElem?_getD, List.getElem?_map]
  cases da[t]? <;> simp [mapF]

/-- Shared lemma: a broadcast scalar operation commutes with level selection. -/
theorem selLevel_mapLS (f : ℚ → ℚ) (da : List LevelStack) (p : Nat) :
    selLevel (mapLS f da) p = map3 f (selLevel da p) := by
  simp only [selLevel, mapLS, map3, List.map_map]
  refine List.map_congr_left fun lv _ => ?_
  simp only [Function.comp]
  rw [List.find?_map]
  rw [show ((fun q => q.1 == p) ∘ fun q : Nat × Field => (q.1, mapF f q.2)) =
      (fun q : Nat × Field => q.1 == p) from rfl]
  cases h : lv.find? (fun q => q.1 == p) <;>
    simp [Function.comp, h, mapF]

/-- C6: the unit conversions commute with time selection and with level
selection: converting the whole array and then selecting time (and level), as
the program does, yields the same 2-D field as slicing out the time/level
first and then converting, as the spec describes, for every array and every
short name. -/
theorem conversion_commutes_with_selection (vname units : String)
    (da : List Field) (da4 : List LevelStack) (t p : Nat) :
    selTime (convertUnits vname da units).1 t
        = (convertField vname (selTime da t) units).1 ∧
    selLevel (convert4 vname da4 units).1 p
        = (convertUnits vname (selLevel da4 p) units).1 ∧
    selTime (convertUnits vname (selLevel da4 p) units).1 t
        = (convertField vname (selTime (selLevel da4 p) t) units).1 := by
  have key : ∀ d : List Field,
      selTime (convertUnits vname d units).1 t
        = (convertField vname (selTime d t) units).1 := by
    intro d
    by_cases h1 : vname ∈ tempNames <;> by_cases h2 : vname ∈ pressNames <;>
      simp [convertUnits, convertField, h1, h2, selTime_map3]
  have key2 : selLevel (convert4 vname da4 units).1 p
      = (convertUnits vname (selLevel da4 p) units).1 := by
    by_cases h1 : vname ∈ tempNames <;> by_cases h2 : vname ∈ pressNames <;>
      simp [convert4, convertUnits, h1, h2, selLevel_mapLS]
  exact ⟨key da, key2, key (selLevel da4 p)⟩

/-- Shared lemma: `wrap360` lands in `[0, 360)`. -/
theorem wrap360_range (x : ℚ) : 0 ≤ wrap360 x ∧ wrap360 x < 360 := by
  have hfract : wrap360 x = 360 * Int.fract (x / 360) := by
    rw [wrap360, Int.fract]
    ring
  constructor
  · rw [hfract]
    exact mul_nonneg (by norm_num) (Int.fract_nonneg _)
  · rw [hfract]
    have := Int.fract_lt_one (x / 360)
    nlinarith [Int.fract_lt_one (x / 360)]

/-- Shared lemma: every ordinary point emitted by `lineSegs` is one of the
line's points. -/
theorem mem_lineSegs (gap : ℚ) : ∀ (ws : List (ℚ × ℚ)) (w : ℚ × ℚ),
    some w ∈ lineSegs gap ws → w ∈ ws
  | [], w, h => by simp [lineSegs] at h
  | [w1], w, h => by
      simp only [lineSegs, List.mem_singleton, Option.some.injEq] at h
      simp [h]
  | w1 :: w2 :: rest, w, h => by
      simp only [lineSegs] at h
      rcases List.mem_cons.mp h with h | h
      · rw [Option.some.injEq] at h
        simp [h]
      · have hmem : some w ∈ lineSegs gap (w2 :: rest) := by
          by_cases c : |w2.1 - w1.1| > gap
          · rw [if_pos c] at h
            rcases List.mem_cons.mp h with h | h
            · exact absurd h (by simp)
            · exact h
          · rwa [if_neg c] at h
        exact List.mem_cons_of_mem _ (mem_lineSegs gap (w2 :: rest) w hmem)

/-- Shared lemma: the inner loop of `coastlines_trace` emits exactly the
points-with-breaks sequence the claim describes. -/
theorem lineSegs_eq_spec (gap : ℚ) : ∀ ws : List (ℚ × ℚ),
    lineSegs gap ws = lineTraceSpec gap ws
  | [] => rfl
  | [w] => by simp [lineSegs, lineTraceSpec]
  | w :: w2 :: rest => by
      have ih := lineSegs_eq_spec gap (w2 :: rest)
      simp only [lineTraceSpec] at ih
      simp only [lineSegs, lineTraceSpec, List.zip_cons_cons, List.flatMap_cons, ih]
      by_cases c : |w2.1 - w.1| > gap <;> simp [c]

/-- C7: in the scatter trace built by `coastlines_trace`, every x coordinate
is either `nan` or lies in `[0, 360)` (longitudes are wrapped with mod 360),
and the trace consists, geometry by geometry and line by line, of a `nan`
break followed by the line's wrapped points with a break between consecutive
points whose wrapped longitudes differ by more than `gap`. -/
theorem coastlines_trace_wrapped_and_broken
    (geoms : List (List (List (ℚ × ℚ)))) (gap : ℚ) :
    (∀ q ∈ coastlines_trace geoms gap,
        q = none ∨ ∃ w, q = some w ∧ 0 ≤ w.1 ∧ w.1 < 360) ∧
    coastlines_trace geoms gap
      = geoms.flatMap (fun geom => geom.flatMap (fun line =>
          none :: lineTraceSpec gap (line.map (fun q => (wrap360 q.1, q.2))))) := by
  constructor
  · intro q hq
    simp only [coastlines_trace, List.mem_flatMap] at hq
    obtain ⟨geom, -, line, -, hq⟩ := hq
    rcases List.mem_cons.mp hq with rfl | hq
    · exact Or.inl rfl
    · cases q with
      | none => exact Or.inl rfl
      | some w =>
        refine Or.inr ⟨w, rfl, ?_⟩
        have hw := mem_lineSegs gap _ w hq
        simp only [List.mem_map] at hw
        obtain ⟨q0, -, hq0⟩ := hw
        rw [← hq0]
        exact wrap360_range q0.1
  · simp only [coastlines_trace, lineSegs_eq_spec]

/-- Witness for C7: in the trace of the single line (365, 10)-(350, 20) with
the default gap 10, the point with wrapped longitude 5 is in range. -/
theorem coastlines_trace_wrapped_and_broken_witness :
    (some ((5 : ℚ), (10 : ℚ)) : TracePt) = none ∨
      ∃ w, (some ((5 : ℚ), (10 : ℚ)) : TracePt) = some w ∧ 0 ≤ w.1 ∧ w.1 < 360 :=
  (coastlines_trace_wrapped_and_broken [[[(365, 10), (350, 20)]]] 10).1
    (some (5, 10))
    (by norm_num [coastlines_trace, lineSegs, wrap360])

/-- C8: the plotting stage is reached exactly when the colour limits in force
(slider values, or quantile values after an auto-scale click) satisfy
`cmin < cmax`; otherwise the run stops with "Min must be less than Max" and
no figure is built. -/
theorem plot_reached_iff_limits_ordered (inp : ColourbarInput) :
    ((∃ a b, colourbarStage inp = .plotted a b) ↔
      (finalLimits inp).1 < (finalLimits inp).2) ∧
    ((finalLimits inp).1 ≥ (finalLimits inp).2 →
      colourbarStage inp = .stopped "Min must be less than Max") := by
  constructor
  · constructor
    · rintro ⟨a, b, h⟩
      by_cases c : (finalLimits inp).1 ≥ (finalLimits inp).2
      · simp [colourbarStage, c] at h
      · exact lt_of_not_ge c
    · intro h
      refine ⟨(finalLimits inp).1, (finalLimits inp).2, ?_⟩
      simp [colourbarStage, not_le.mpr h]
  · intro h
    simp [colourbarStage, h]

/-- Witness for C8: with the auto-scale click returning the degenerate
quantiles (2, 2) the run stops with the error message. -/
theorem plot_reached_iff_limits_ordered_witness :
    colourbarStage ⟨0, 1, true, 2, 2⟩ = .stopped "Min must be less than Max" :=
  (plot_reached_iff_limits_ordered ⟨0, 1, true, 2, 2⟩).2 (by norm_num [finalLimits])

/-- C9: every `SURFACE` entry has domain `"sfc"`, every `PRESSURE` entry has
domain `"pl"`, no display name occurs in both tables, and consequently
`rda_url` takes the monthly surface branch on every `SURFACE` entry and the
daily pressure-level branch on every `PRESSURE` entry. -/
theorem tables_domains_disjoint_branch (d : PyDate) :
    (∀ e ∈ SURFACE, e.2.dom = "sfc") ∧
    (∀ e ∈ PRESSURE, e.2.dom = "pl") ∧
    (∀ e ∈ SURFACE, ∀ e2 ∈ PRESSURE, e.1 ≠ e2.1) ∧
    (∀ e ∈ SURFACE, rda_url e.2.dom e.2.code e.2.vname d
        = urlSfcSpec e.2.code e.2.vname d.year d.month) ∧
    (∀ e ∈ PRESSURE, rda_url e.2.dom e.2.code e.2.vname d
        = urlPlSpec e.2.code e.2.vname d.year d.month d.day) := by
  have h1 : ∀ e ∈ SURFACE, e.2.dom = "sfc" := by decide
  have h2 : ∀ e ∈ PRESSURE, e.2.dom = "pl" := by decide
  refine ⟨h1, h2, by decide, fun e he => ?_, fun e he => ?_⟩
  · rw [h1 e he]
    exact rda_url_sfc e.2.code e.2.vname d
  · rw [h2 e he]
    exact rda_url_pl e.2.code e.2.vname d

/-- Witness for C9: the sea-surface temperature entry of `SURFACE` produces
the monthly surface URL on 2022-01-01. -/
theorem tables_domains_disjoint_branch_witness :
    rda_url "sfc" "034" "sstk" ⟨2022, 1, 1⟩ = urlSfcSpec "034" "sstk" 2022 1 :=
  (tables_domains_disjoint_branch ⟨2022, 1, 1⟩).2.2.2.1
    ("Sea-surface temperature", ⟨"sfc", "034", "sstk", "°C", "thermal"⟩) (by decide)

/-- C10: `plevel` is `None` exactly on the Surface branch; when some pressure
level is selected it is an element of `COMMON_PLEVELS`; a surface field is
plotted without any level selection; and a pressure-level field is restricted
to the chosen level before the unit conversion and the time selection. -/
theorem plevel_none_iff_surface (sb : Sidebar) (sfcData : List Field)
    (plData : List LevelStack) (t : Nat) :
    (plevelOf sb = none ↔ sb.field_type = .Surface) ∧
    (∀ p, plevelOf sb = some p → p ∈ COMMON_PLEVELS) ∧
    (sb.field_type = .Surface →
      program_field sb sfcData plData t
        = selTime (convertUnits (chosenEntry sb).vname sfcData
            (chosenEntry sb).units).1 t) ∧
    (sb.field_type = .PressureLevel →
      program_field sb sfcData plData t
        = selTime (convertUnits (chosenEntry sb).vname
            (selLevel plData (COMMON_PLEVELS.get sb.plevel_choice))
            (chosenEntry sb).units).1 t) := by
  refine ⟨?_, ?_, ?_, ?_⟩
  · cases h : sb.field_type <;> simp [plevelOf, h]
  · intro p hp
    cases h : sb.field_type <;> simp [plevelOf, h] at hp
    rw [← hp]
    apply List.getElem_mem
  · intro h
    simp [program_field, plevelOf, h]
  · intro h
    simp [program_field, plevelOf, h]

/-- Witness for C10: on the pressure-level branch with the second level
selected, `plevel` is 850 hPa, an element of `COMMON_PLEVELS`. -/
theorem plevel_none_iff_surface_witness :
    (850 : Nat) ∈ COMMON_PLEVELS :=
  (plevel_none_iff_surface
      ⟨.PressureLevel, ⟨0, by decide⟩, ⟨2, by decide⟩, ⟨1, by decide⟩⟩
      [] [] 0).2.1 850 (by decide)

/-- C1: with the anomaly option selected, the field handed to the plotting
call is the selected ERA5 field minus the corresponding climatology slice,
elementwise; with the option off it is the raw field.  (The anomaly variant
is modelled from the spec, see `anomalyStep`.) -/
theorem anomaly_is_field_minus_climatology (field clim : Field) (i j : Nat)
    (hi1 : i < field.length) (hi2 : i < clim.length)
    (hj1 : j < (field.getD i []).length) (hj2 : j < (clim.getD i []).length) :
    ((anomalyStep true field clim).getD i []).getD j 0
      = (field.getD i []).getD j 0 - (clim.getD i []).getD j 0 ∧
    anomalyStep false field clim = field := by
  refine ⟨?_, rfl⟩
  have hlen : i < (fieldSub field clim).length := by
    rw [fieldSub, List.length_zipWith]
    omega
  have hrow : (anomalyStep true field clim).getD i []
      = List.zipWith (fun x y : ℚ => x - y) (field.getD i []) (clim.getD i []) := by
    rw [show anomalyStep true field clim = fieldSub field clim from rfl]
    rw [List.getD_eq_getElem?_getD, List.getElem?_eq_getElem hlen]
    rw [show (fieldSub field clim)[i] =
        List.zipWith (fun x y : ℚ => x - y) field[i] clim[i] from
      List.getElem_zipWith]
    rw [List.getD_eq_getElem?_getD field, List.getElem?_eq_getElem hi1,
      List.getD_eq_getElem?_getD clim, List.getElem?_eq_getElem hi2]
    rfl
  rw [hrow]
  have hlen2 : j < (List.zipWith (fun x y : ℚ => x - y)
      (field.getD i []) (clim.getD i [])).length := by
    rw [List.length_zipWith]
    omega
  rw [List.getD_eq_getElem?_getD, List.getElem?_eq_getElem hlen2]
  rw [show (List.zipWith (fun x y : ℚ => x - y)
      (field.getD i []) (clim.getD i []))[j] =
    (fun x y : ℚ => x - y) (field.getD i [])[j] (clim.getD i [])[j] from
    List.getElem_zipWith]
  rw [List.getD_eq_getElem?_getD (field.getD i []),
    List.getElem?_eq_getElem hj1,
    List.getD_eq_getElem?_getD (clim.getD i []),
    List.getElem?_eq_getElem hj2]
  rfl

/-- Witness for C1: a one-point field of 280 against a one-point climatology
of 273 renders as the anomaly 7. -/
theorem anomaly_is_field_minus_climatology_witness :
    ((anomalyStep true [[280]] [[273]]).getD 0 []).getD 0 0
      = (([[280]] : Field).getD 0 []).getD 0 0
        - (([[273]] : Field).getD 0 []).getD 0 0 :=
  (anomaly_is_field_minus_climatology [[280]] [[273]] 0 0
    (by decide) (by decide) (by decide) (by decide)).1

end ERA5
